import Mathlib

/-!
# Verification of the Cloudways varnish-action client (`src/api.js`)

A shallow embedding of the four exported functions of `src/api.js`:
`getAccessToken`, `executeVarnishAction`, `checkOperationStatus` /
`checkOperationUntilComplete`, and `waitForCompletion`.

JSON response bodies are modelled by `JSValue`; a top-level JSON object body
is a `List (String × JSValue)` association list.  The network (`fetch` +
`response.json()`) is abstracted as a function supplying the parsed response
body: for the polling loop, `responses : Nat → List (String × JSValue)` gives
the body returned by `checkOperationStatus` on each attempt number; for the
varnish action, `net` maps the request payload to the response body.  The
`sleep(interval)` call only suspends and is a no-op in this pure model; the
`interval` argument is still threaded through unchanged, as in the source.
Each `throw new Error(...)` site of the source becomes a distinct
`ApiError` constructor carrying the data interpolated into its message.
-/

/-- A JavaScript/JSON value, as produced by `response.json()` or by the
expressions of `api.js` (`parseInt` can also produce `NaN`). -/
inductive JSValue where
  | undefined
  | null
  | nan
  | bool (b : Bool)
  | num (n : Int)
  | str (s : String)
  | obj (fields : List (String × JSValue))
deriving Repr

/-- JavaScript truthiness: `undefined`, `null`, `NaN`, `false`, `0` and `""`
are falsy; every other value (including every object) is truthy. -/
def truthy : JSValue → Bool
  | .undefined => false
  | .null => false
  | .nan => false
  | .bool b => b
  | .num n => n != 0
  | .str s => s != ""
  | .obj _ => true

/-- Property read `data.k` on a top-level JSON object body: the first binding
for `k`, or `undefined` when the key is absent. -/
def objGet (fields : List (String × JSValue)) (k : String) : JSValue :=
  (fields.lookup k).getD .undefined

/-- Property read `v.k` on an inner `JSValue`.  In the source this is only
evaluated on values already checked truthy (`status.operation.is_completed`
sits under `if (status.operation)`), where JavaScript member access cannot
throw — only `null`/`undefined` access throws, and both are falsy; access on
a truthy non-object yields `undefined`. -/
def JSValue.getField : JSValue → String → JSValue
  | .obj fields, k => objGet fields k
  | _, _ => .undefined

/-- The error taxonomy: one constructor per `throw new Error(...)` site of
`api.js`, carrying the data interpolated into that site's message. -/
inductive ApiError where
  /-- Thrown as `Failed to obtain access token: ...stringified body` (line 22). -/
  | authenticationError (raw : List (String × JSValue))
  /-- Thrown as `Operation failed: ...errorMsg` (line 68). -/
  | operationError (errorMsg : JSValue)
  /-- Thrown as `Unexpected response: ...stringified body` (line 78). -/
  | unexpectedResponseError (raw : List (String × JSValue))
  /-- Thrown as `Operation timed out after ...maxAttempts attempts (ID: ...operationId)` (line 138). -/
  | timeoutError (operationId : String) (maxAttempts : Nat)
deriving Repr

/-- `getAccessToken` (lines 10–27), applied to the parsed token-endpoint
response body `data`: `if (!data.access_token) throw ...; return
data.access_token`. -/
def getAccessToken (data : List (String × JSValue)) : Except ApiError JSValue :=
  if !truthy (objGet data "access_token") then
    .error (.authenticationError data)
  else
    .ok (objGet data "access_token")

/-- JavaScript `parseInt(s, 10)`: skip leading whitespace, read an optional
sign, then the longest prefix of decimal digits; `NaN` when no digit is
found. -/
def parseIntBase10 (s : String) : JSValue :=
  let cs := s.toList.dropWhile fun c => c == ' ' || c == '\t' || c == '\n' || c == '\r'
  let signed : List Char → Bool → JSValue := fun ds neg =>
    let digits := ds.takeWhile Char.isDigit
    if digits.isEmpty then .nan
    else
      let v : Int := digits.foldl (fun acc c => acc * 10 + (c.toNat - 48)) (0 : Nat)
      .num (if neg then -v else v)
  match cs with
  | '-' :: rest => signed rest true
  | '+' :: rest => signed rest false
  | _ => signed cs false

/-- The request payload built by `executeVarnishAction` (lines 44–48):
`{server_id: parseInt(serverId, 10), action}`. -/
def buildVarnishPayload (serverId action : String) : List (String × JSValue) :=
  [("server_id", parseIntBase10 serverId), ("action", .str action)]

/-- Interpretation of the varnish-endpoint response body (lines 66–78):
`data.status === false` is checked first (throw `Operation failed` with
`data.message || 'Unknown error'`), then `data.status === true` (return
`{completed: true}`); any other `status` value throws
`Unexpected response`. -/
def interpretVarnishResponse (data : List (String × JSValue)) :
    Except ApiError (List (String × JSValue)) :=
  match objGet data "status" with
  | .bool false =>
      .error (.operationError
        (if truthy (objGet data "message") then objGet data "message"
         else .str "Unknown error"))
  | .bool true => .ok [("completed", .bool true)]
  | _ => .error (.unexpectedResponseError data)

/-- `executeVarnishAction` (lines 40–79): build the payload, POST it (the
network is the function `net` from payload to parsed response body), then
interpret the response. -/
def executeVarnishAction (serverId action : String)
    (net : List (String × JSValue) → List (String × JSValue)) :
    Except ApiError (List (String × JSValue)) :=
  interpretVarnishResponse (net (buildVarnishPayload serverId action))

/-- `checkOperationUntilComplete` (lines 135–156).  The status fetch
`checkOperationStatus(token, operationId)` on a given attempt is abstracted
as `responses attempt`; `await sleep(interval)` is a no-op here.  The
structure mirrors the source: timeout check first (`attempt > maxAttempts`),
then fetch, then the nested `if (status.operation)` /
`if (status.operation.is_completed)` with fall-through to the recursive
call at `attempt + 1`. -/
def checkOperationUntilComplete (operationId : String)
    (responses : Nat → List (String × JSValue))
    (attempt maxAttempts interval : Nat) : Except ApiError JSValue :=
  if attempt > maxAttempts then
    .error (.timeoutError operationId maxAttempts)
  else
    let status := responses attempt
    if truthy (objGet status "operation") then
      if truthy ((objGet status "operation").getField "is_completed") then
        .ok (objGet status "operation")
      else
        checkOperationUntilComplete operationId responses (attempt + 1) maxAttempts interval
    else
      checkOperationUntilComplete operationId responses (attempt + 1) maxAttempts interval
termination_by maxAttempts + 1 - attempt
decreasing_by all_goals omega

/-- The attempt numbers at which `checkOperationUntilComplete` performs a
status fetch, following exactly the same control flow: no fetch once
`attempt > maxAttempts`, one final fetch on the attempt observing
completion, and one fetch plus the recursion's fetches otherwise. -/
def checkOperationFetches (responses : Nat → List (String × JSValue))
    (attempt maxAttempts : Nat) : List Nat :=
  if attempt > maxAttempts then
    []
  else
    let status := responses attempt
    if truthy (objGet status "operation") then
      if truthy ((objGet status "operation").getField "is_completed") then
        [attempt]
      else
        attempt :: checkOperationFetches responses (attempt + 1) maxAttempts
    else
      attempt :: checkOperationFetches responses (attempt + 1) maxAttempts
termination_by maxAttempts + 1 - attempt
decreasing_by all_goals omega

/-- Bridge from a JavaScript number to the `Nat` attempt counter / interval;
in every reachable call of the source these are nonnegative integers. -/
def jsToNat : JSValue → Nat
  | .num n => n.toNat
  | _ => 0

/-- `waitForCompletion` (lines 172–179): `maxAttempts || 30` and
`interval || 5000` (JavaScript `||` takes the right operand whenever the
left is falsy), then start `checkOperationUntilComplete` at attempt 1. -/
def waitForCompletion (operationId : String)
    (responses : Nat → List (String × JSValue))
    (maxAttempts interval : JSValue) : Except ApiError JSValue :=
  let maxWait := if truthy maxAttempts then maxAttempts else .num 30
  let waitInterval := if truthy interval then interval else .num 5000
  checkOperationUntilComplete operationId responses 1 (jsToNat maxWait) (jsToNat waitInterval)

/-- A status body whose `operation` reports `is_completed` truthy. -/
def completesAt (status : List (String × JSValue)) : Bool :=
  truthy (objGet status "operation") &&
    truthy ((objGet status "operation").getField "is_completed")

/-- The status body `{operation: {is_completed: false}}`. -/
def incompleteStatus : List (String × JSValue) :=
  [("operation", .obj [("is_completed", .bool false)])]

/-- A status endpoint that always answers `{operation: {is_completed: false}}`. -/
def alwaysIncomplete : Nat → List (String × JSValue) := fun _ => incompleteStatus

/-! ## Helper lemmas about the polling loop -/

/-- Once `attempt > maxAttempts`, the loop fails with the timeout error
before fetching anything. -/
theorem poll_timeout (operationId : String) (responses : Nat → List (String × JSValue))
    (attempt maxAttempts interval : Nat) (h : attempt > maxAttempts) :
    checkOperationUntilComplete operationId responses attempt maxAttempts interval
      = .error (.timeoutError operationId maxAttempts) := by
  unfold checkOperationUntilComplete
  rw [if_pos h]

/-- Once `attempt > maxAttempts`, no fetch is performed. -/
theorem fetches_stop (responses : Nat → List (String × JSValue))
    (attempt maxAttempts : Nat) (h : attempt > maxAttempts) :
    checkOperationFetches responses attempt maxAttempts = [] := by
  unfold checkOperationFetches
  rw [if_pos h]

/-- Within budget, a completed status ends the loop with the operation
object. -/
theorem poll_done (operationId : String) (responses : Nat → List (String × JSValue))
    (attempt maxAttempts interval : Nat) (h : ¬ attempt > maxAttempts)
    (hc : completesAt (responses attempt) = true) :
    checkOperationUntilComplete operationId responses attempt maxAttempts interval
      = .ok (objGet (responses attempt) "operation") := by
  rw [completesAt, Bool.and_eq_true] at hc
  conv_lhs => unfold checkOperationUntilComplete
  rw [if_neg h]
  simp [hc.1, hc.2]

/-- Within budget, a completed status means the current attempt is the last
fetch. -/
theorem fetches_done (responses : Nat → List (String × JSValue))
    (attempt maxAttempts : Nat) (h : ¬ attempt > maxAttempts)
    (hc : completesAt (responses attempt) = true) :
    checkOperationFetches responses attempt maxAttempts = [attempt] := by
  rw [completesAt, Bool.and_eq_true] at hc
  conv_lhs => unfold checkOperationFetches
  rw [if_neg h]
  simp [hc.1, hc.2]

/-- Within budget, a status not reporting completion (operation absent, or
present with falsy `is_completed`) makes the loop continue at the next
attempt. -/
theorem poll_step (operationId : String) (responses : Nat → List (String × JSValue))
    (attempt maxAttempts interval : Nat) (h : ¬ attempt > maxAttempts)
    (hnc : completesAt (responses attempt) = false) :
    checkOperationUntilComplete operationId responses attempt maxAttempts interval
      = checkOperationUntilComplete operationId responses (attempt + 1) maxAttempts interval := by
  conv_lhs => unfold checkOperationUntilComplete
  rw [if_neg h]
  cases h1 : truthy (objGet (responses attempt) "operation") with
  | false => simp [h1]
  | true =>
    cases h2 : truthy ((objGet (responses attempt) "operation").getField "is_completed") with
    | false => simp [h1, h2]
    | true => rw [completesAt, h1, h2] at hnc; cases hnc

/-- Within budget, a status not reporting completion contributes one fetch
then the recursion's fetches. -/
theorem fetches_step (responses : Nat → List (String × JSValue))
    (attempt maxAttempts : Nat) (h : ¬ attempt > maxAttempts)
    (hnc : completesAt (responses attempt) = false) :
    checkOperationFetches responses attempt maxAttempts
      = attempt :: checkOperationFetches responses (attempt + 1) maxAttempts := by
  conv_lhs => unfold checkOperationFetches
  rw [if_neg h]
  cases h1 : truthy (objGet (responses attempt) "operation") with
  | false => simp [h1]
  | true =>
    cases h2 : truthy ((objGet (responses attempt) "operation").getField "is_completed") with
    | false => simp [h1, h2]
    | true => rw [completesAt, h1, h2] at hnc; cases hnc

/-- The loop only reads the status endpoint at attempt numbers `≥` the
current attempt: two endpoints agreeing there give the same run. -/
theorem poll_congr (operationId : String)
    (responses responses2 : Nat → List (String × JSValue))
    (maxAttempts interval : Nat) :
    ∀ d attempt, maxAttempts + 1 - attempt ≤ d →
    (∀ j, attempt ≤ j → responses j = responses2 j) →
    checkOperationUntilComplete operationId responses attempt maxAttempts interval
      = checkOperationUntilComplete operationId responses2 attempt maxAttempts interval := by
  intro d
  induction d with
  | zero =>
    intro attempt hd _
    have hgt : attempt > maxAttempts := by omega
    rw [poll_timeout _ _ _ _ _ hgt, poll_timeout _ _ _ _ _ hgt]
  | succ n ih =>
    intro attempt hd hag
    by_cases hgt : attempt > maxAttempts
    · rw [poll_timeout _ _ _ _ _ hgt, poll_timeout _ _ _ _ _ hgt]
    · have hr : responses attempt = responses2 attempt := hag attempt le_rfl
      cases hc : completesAt (responses attempt) with
      | true =>
        rw [poll_done _ _ _ _ _ hgt hc, poll_done _ _ _ _ _ hgt (hr ▸ hc), hr]
      | false =>
        rw [poll_step _ _ _ _ _ hgt hc, poll_step _ _ _ _ _ hgt (hr ▸ hc)]
        exact ih (attempt + 1) (by omega) fun j hj => hag j (by omega)

/-- If completion is first observed on attempt `attempt + d` and that attempt
is within budget, the loop returns that attempt's operation object and
fetches exactly attempts `attempt, ..., attempt + d`. -/
theorem poll_first_complete (operationId : String)
    (responses : Nat → List (String × JSValue)) (maxAttempts interval : Nat) :
    ∀ d attempt, attempt + d ≤ maxAttempts →
    completesAt (responses (attempt + d)) = true →
    (∀ j, attempt ≤ j → j < attempt + d → completesAt (responses j) = false) →
    checkOperationUntilComplete operationId responses attempt maxAttempts interval
      = .ok (objGet (responses (attempt + d)) "operation")
    ∧ checkOperationFetches responses attempt maxAttempts = List.range' attempt (d + 1) := by
  intro d
  induction d with
  | zero =>
    intro attempt h1 h2 _
    have hle : ¬ attempt > maxAttempts := by omega
    rw [Nat.add_zero] at h2
    refine ⟨?_, ?_⟩
    · rw [poll_done _ _ _ _ _ hle h2, Nat.add_zero]
    · rw [fetches_done _ _ _ hle h2]
      rfl
  | succ n ih =>
    intro attempt h1 h2 h3
    have hle : ¬ attempt > maxAttempts := by omega
    have hnc : completesAt (responses attempt) = false :=
      h3 attempt le_rfl (by omega)
    have hshift : attempt + (n + 1) = (attempt + 1) + n := by omega
    have ih2 := ih (attempt + 1) (by omega) (by rw [← hshift]; exact h2)
      (fun j hj1 hj2 => h3 j (by omega) (by omega))
    refine ⟨?_, ?_⟩
    · rw [poll_step _ _ _ _ _ hle hnc, hshift]
      exact ih2.1
    · rw [fetches_step _ _ _ hle hnc, ih2.2]
      simp [List.range'_succ]

/-- If no attempt ever reports completion, a run starting `d` attempts below
the cutoff `maxAttempts + 1` times out and fetches exactly the `d` attempts
`attempt, ..., maxAttempts`. -/
theorem poll_all_incomplete (operationId : String)
    (responses : Nat → List (String × JSValue)) (maxAttempts interval : Nat)
    (hall : ∀ j, completesAt (responses j) = false) :
    ∀ d attempt, attempt + d = maxAttempts + 1 →
    checkOperationUntilComplete operationId responses attempt maxAttempts interval
      = .error (.timeoutError operationId maxAttempts)
    ∧ checkOperationFetches responses attempt maxAttempts = List.range' attempt d := by
  intro d
  induction d with
  | zero =>
    intro attempt h1
    have hgt : attempt > maxAttempts := by omega
    exact ⟨poll_timeout _ _ _ _ _ hgt, fetches_stop _ _ _ hgt⟩
  | succ n ih =>
    intro attempt h1
    have hle : ¬ attempt > maxAttempts := by omega
    have ih2 := ih (attempt + 1) (by omega)
    refine ⟨?_, ?_⟩
    · rw [poll_step _ _ _ _ _ hle (hall attempt)]
      exact ih2.1
    · rw [fetches_step _ _ _ hle (hall attempt), ih2.2, List.range'_succ]

/-! ## Concrete response streams used as witnesses -/

/-- A status endpoint answering `{operation: {is_completed: true, message:
"done"}}` on attempt 2 and `{operation: {is_completed: false}}` otherwise. -/
def completesAtTwo : Nat → List (String × JSValue) := fun n =>
  if n = 2 then [("operation", .obj [("is_completed", .bool true), ("message", .str "done")])]
  else incompleteStatus

/-- A status endpoint answering a body with no `operation` field on attempt 1
and a completed operation afterwards. -/
def noOperationThenComplete : Nat → List (String × JSValue) := fun n =>
  if n = 1 then [("message", .str "queued")]
  else [("operation", .obj [("is_completed", .bool true)])]

/-- A status endpoint answering `{operation: {is_completed: false}}` on
attempt 1 and a completed operation afterwards. -/
def incompleteThenComplete : Nat → List (String × JSValue) := fun n =>
  if n = 1 then incompleteStatus
  else [("operation", .obj [("is_completed", .bool true)])]

/-! ## The claims -/

/-- C1: a `waitForCompletion` call with `maxAttempts = 3` against a status
endpoint that always returns `{operation: {is_completed: false}}` fails with
the timeout error naming the operation id and the attempt count, after
exactly the three status fetches of attempts 1, 2 and 3; the timeout check
precedes each cycle, so a run whose counter already exceeds the budget (the
would-be 4th cycle) performs no fetch at all and fails at once. -/
theorem waitForCompletion_times_out_after_three_attempts (operationId : String)
    (interval : JSValue) (responses : Nat → List (String × JSValue)) (ivN : Nat) :
    waitForCompletion operationId alwaysIncomplete (.num 3) interval
      = .error (.timeoutError operationId 3)
    ∧ checkOperationFetches alwaysIncomplete 1 3 = [1, 2, 3]
    ∧ checkOperationFetches responses 4 3 = []
    ∧ checkOperationUntilComplete operationId responses 4 3 ivN
      = .error (.timeoutError operationId 3) := by
  have hall : ∀ j, completesAt (alwaysIncomplete j) = false := fun _ => rfl
  refine ⟨?_, ?_, fetches_stop _ _ _ (by omega), poll_timeout _ _ _ _ _ (by omega)⟩
  · exact (poll_all_incomplete operationId alwaysIncomplete 3 _ hall 3 1 rfl).1
  · exact ((poll_all_incomplete operationId alwaysIncomplete 3 0 hall 3 1 rfl).2).trans rfl

/-- C2: `waitForCompletion` returns the operation object — the value of the
response's `operation` field, not the whole response — on the first attempt
`k` where completion is observed, and the fetched attempts are exactly
`1, ..., k`: no further status fetch is made, regardless of the remaining
attempt budget. -/
theorem waitForCompletion_returns_first_completion (operationId : String)
    (responses : Nat → List (String × JSValue)) (maxAttempts interval k : Nat)
    (h1 : 1 ≤ k) (h2 : k ≤ maxAttempts)
    (hk : completesAt (responses k) = true)
    (hfirst : ∀ j, 1 ≤ j → j < k → completesAt (responses j) = false) :
    waitForCompletion operationId responses (.num maxAttempts) (.num interval)
      = .ok (objGet (responses k) "operation")
    ∧ checkOperationFetches responses 1 maxAttempts = List.range' 1 k := by
  have hma : truthy (JSValue.num maxAttempts) = true := by
    simp [truthy]
    omega
  have key : ∀ w, checkOperationUntilComplete operationId responses 1 maxAttempts w
      = .ok (objGet (responses k) "operation") := by
    intro w
    have e := poll_first_complete operationId responses maxAttempts w (k - 1) 1
      (by omega) (by rw [show 1 + (k - 1) = k by omega]; exact hk)
      (fun j hj1 hj2 => hfirst j hj1 (by omega))
    rw [show 1 + (k - 1) = k by omega] at e
    exact e.1
  have keyf := poll_first_complete operationId responses maxAttempts 0 (k - 1) 1
    (by omega) (by rw [show 1 + (k - 1) = k by omega]; exact hk)
    (fun j hj1 hj2 => hfirst j hj1 (by omega))
  refine ⟨?_, ?_⟩
  · simp [waitForCompletion, hma, jsToNat]
    exact key _
  · rw [keyf.2, show k - 1 + 1 = k by omega]

/-- C2 witness: completing on attempt 2 of a possible 30 returns that
attempt's operation object after exactly the fetches at attempts 1 and 2. -/
theorem waitForCompletion_returns_first_completion_witness :
    waitForCompletion "op-2" completesAtTwo (.num 30) (.num 5000)
      = .ok (.obj [("is_completed", .bool true), ("message", .str "done")])
    ∧ checkOperationFetches completesAtTwo 1 30 = [1, 2] := by
  have h := waitForCompletion_returns_first_completion "op-2" completesAtTwo 30 5000 2
    (by omega) (by omega) rfl
    (fun j hj1 hj2 => by
      have hj : j = 1 := by omega
      subst hj
      rfl)
  exact ⟨h.1.trans rfl, h.2.trans rfl⟩

/-- C3: within budget, a status response with no `operation` field at all is
handled exactly like the not-yet-completed case: the run does not fail on
that response, it performs this one fetch, moves to attempt `attempt + 1`
and continues from there; moreover the whole run coincides with the run
against any endpoint that answers some not-completed status on this attempt
and the same statuses afterwards. -/
theorem checkOperation_missing_operation_continues (operationId : String)
    (responses responses2 : Nat → List (String × JSValue))
    (attempt maxAttempts interval : Nat)
    (hin : ¬ attempt > maxAttempts)
    (hnoop : truthy (objGet (responses attempt) "operation") = false)
    (hsame : ∀ j, attempt + 1 ≤ j → responses j = responses2 j)
    (hnc2 : completesAt (responses2 attempt) = false) :
    checkOperationUntilComplete operationId responses attempt maxAttempts interval
      = checkOperationUntilComplete operationId responses (attempt + 1) maxAttempts interval
    ∧ checkOperationFetches responses attempt maxAttempts
      = attempt :: checkOperationFetches responses (attempt + 1) maxAttempts
    ∧ checkOperationUntilComplete operationId responses attempt maxAttempts interval
      = checkOperationUntilComplete operationId responses2 attempt maxAttempts interval := by
  have hnc : completesAt (responses attempt) = false := by
    simp [completesAt, hnoop]
  refine ⟨poll_step _ _ _ _ _ hin hnc, fetches_step _ _ _ hin hnc, ?_⟩
  rw [poll_step _ _ _ _ _ hin hnc, poll_step _ _ _ _ _ hin hnc2]
  exact poll_congr operationId responses responses2 maxAttempts interval
    (maxAttempts + 1 - (attempt + 1)) (attempt + 1) le_rfl hsame

/-- C3 witness: an operation-less body on attempt 1 out of 30 continues into
attempt 2, and the run equals the run against the endpoint answering
`{operation: {is_completed: false}}` there instead. -/
theorem checkOperation_missing_operation_continues_witness :
    checkOperationUntilComplete "op-1" noOperationThenComplete 1 30 5000
      = checkOperationUntilComplete "op-1" noOperationThenComplete 2 30 5000
    ∧ checkOperationFetches noOperationThenComplete 1 30
      = 1 :: checkOperationFetches noOperationThenComplete 2 30
    ∧ checkOperationUntilComplete "op-1" noOperationThenComplete 1 30 5000
      = checkOperationUntilComplete "op-1" incompleteThenComplete 1 30 5000 :=
  checkOperation_missing_operation_continues "op-1" noOperationThenComplete
    incompleteThenComplete 1 30 5000
    (by omega) rfl
    (fun j hj => by
      have hne : j ≠ 1 := by omega
      simp [noOperationThenComplete, incompleteThenComplete, hne])
    rfl

/-- C4: every action response with `status === true` makes
`executeVarnishAction` return `{completed: true}` no matter which other
fields are present; and the explicit failure flag `status === false` (checked
first in the source) likewise forces the operation error, so the two boolean
flags take precedence over any other field and the generic
unexpected-response failure. -/
theorem executeVarnishAction_status_true_completed (serverId action : String)
    (net : List (String × JSValue) → List (String × JSValue)) :
    (objGet (net (buildVarnishPayload serverId action)) "status" = .bool true →
      executeVarnishAction serverId action net = .ok [("completed", .bool true)])
    ∧ (objGet (net (buildVarnishPayload serverId action)) "status" = .bool false →
      ∃ errorMsg, executeVarnishAction serverId action net
        = .error (.operationError errorMsg)) := by
  constructor
  · intro h
    simp [executeVarnishAction, interpretVarnishResponse, h]
  · intro h
    exact ⟨if truthy (objGet (net (buildVarnishPayload serverId action)) "message")
      then objGet (net (buildVarnishPayload serverId action)) "message"
      else .str "Unknown error", by simp [executeVarnishAction, interpretVarnishResponse, h]⟩

/-- C4 witness: a response with `status: true` plus an extra field still
yields `{completed: true}`. -/
theorem executeVarnishAction_status_true_completed_witness :
    executeVarnishAction "42" "flush_all"
      (fun _ => [("status", .bool true), ("operation_id", .num 7)])
      = .ok [("completed", .bool true)] :=
  (executeVarnishAction_status_true_completed "42" "flush_all"
    (fun _ => [("status", .bool true), ("operation_id", .num 7)])).1 rfl

/-- C5 counterexample: on the response `{status: false, message: ""}` the
`message` field IS present, yet the failure carries the literal
"Unknown error" instead of that field's (empty) value — the source tests
`data.message` for truthiness, not for presence. -/
theorem executeVarnishAction_present_empty_message_counterexample :
    executeVarnishAction "42" "flush_all"
      (fun _ => [("status", .bool false), ("message", .str "")])
      = .error (.operationError (.str "Unknown error"))
    ∧ executeVarnishAction "42" "flush_all"
      (fun _ => [("status", .bool false), ("message", .str "")])
      ≠ .error (.operationError (.str "")) := by
  constructor
  · rfl
  · rw [show executeVarnishAction "42" "flush_all"
        (fun _ => [("status", .bool false), ("message", .str "")])
        = .error (.operationError (.str "Unknown error")) from rfl]
    simp

/-- C5 (amended): every action response with `status === false` makes
`executeVarnishAction` fail with the operation error whose message is the
response's `message` field when that field is present AND truthy (e.g. a
non-empty string), and the literal "Unknown error" otherwise — when the
field is absent or holds a falsy value such as the empty string. -/
theorem executeVarnishAction_status_false_operationError (serverId action : String)
    (net : List (String × JSValue) → List (String × JSValue))
    (h : objGet (net (buildVarnishPayload serverId action)) "status" = .bool false) :
    executeVarnishAction serverId action net
      = .error (.operationError
          (if truthy (objGet (net (buildVarnishPayload serverId action)) "message")
           then objGet (net (buildVarnishPayload serverId action)) "message"
           else .str "Unknown error")) := by
  simp [executeVarnishAction, interpretVarnishResponse, h]

/-- C5 witness: a failure response with a non-empty message carries exactly
that message. -/
theorem executeVarnishAction_status_false_operationError_witness :
    executeVarnishAction "42" "flush_all"
      (fun _ => [("status", .bool false), ("message", .str "Server busy")])
      = .error (.operationError (.str "Server busy")) :=
  (executeVarnishAction_status_false_operationError "42" "flush_all"
    (fun _ => [("status", .bool false), ("message", .str "Server busy")]) rfl).trans rfl

/-- C6: every action response whose `status` field is neither the boolean
`true` nor the boolean `false` — absent, or a non-boolean value such as the
string "pending" — makes `executeVarnishAction` fail with the
unexpected-response error carrying the raw response body. -/
theorem executeVarnishAction_unexpected_response (serverId action : String)
    (net : List (String × JSValue) → List (String × JSValue))
    (h1 : objGet (net (buildVarnishPayload serverId action)) "status" ≠ .bool true)
    (h2 : objGet (net (buildVarnishPayload serverId action)) "status" ≠ .bool false) :
    executeVarnishAction serverId action net
      = .error (.unexpectedResponseError (net (buildVarnishPayload serverId action))) := by
  cases h : objGet (net (buildVarnishPayload serverId action)) "status" with
  | bool b =>
    cases b with
    | false => exact absurd h h2
    | true => exact absurd h h1
  | undefined => simp [executeVarnishAction, interpretVarnishResponse, h]
  | null => simp [executeVarnishAction, interpretVarnishResponse, h]
  | nan => simp [executeVarnishAction, interpretVarnishResponse, h]
  | num n => simp [executeVarnishAction, interpretVarnishResponse, h]
  | str s => simp [executeVarnishAction, interpretVarnishResponse, h]
  | obj fields => simp [executeVarnishAction, interpretVarnishResponse, h]

/-- C6 witness: `{status: "pending"}` fails with the unexpected-response
error carrying the raw body. -/
theorem executeVarnishAction_unexpected_response_witness :
    executeVarnishAction "42" "flush_all" (fun _ => [("status", .str "pending")])
      = .error (.unexpectedResponseError [("status", .str "pending")]) :=
  executeVarnishAction_unexpected_response "42" "flush_all"
    (fun _ => [("status", .str "pending")])
    (by simp [objGet]) (by simp [objGet])

/-- C7: every token-endpoint response body whose `access_token` field is
non-empty (truthy) makes `getAccessToken` return exactly that field's
value. -/
theorem getAccessToken_returns_token_field (data : List (String × JSValue))
    (h : truthy (objGet data "access_token") = true) :
    getAccessToken data = .ok (objGet data "access_token") := by
  simp [getAccessToken, h]

/-- C7 witness: `{access_token: "tok-1"}` yields exactly "tok-1". -/
theorem getAccessToken_returns_token_field_witness :
    getAccessToken [("access_token", .str "tok-1")] = .ok (.str "tok-1") :=
  getAccessToken_returns_token_field [("access_token", .str "tok-1")] rfl

/-- C8: every token-endpoint response body missing the `access_token` field
or holding a falsy value for it makes `getAccessToken` fail — in this single
attempt, with no retry — with the authentication error carrying the raw
response body for diagnostics. -/
theorem getAccessToken_falsy_token_fails (data : List (String × JSValue))
    (h : truthy (objGet data "access_token") = false) :
    getAccessToken data = .error (.authenticationError data) := by
  simp [getAccessToken, h]

/-- C8 witness: the empty-object body, a `null` token and an empty-string
token all fail with the authentication error carrying the raw body. -/
theorem getAccessToken_falsy_token_fails_witness :
    getAccessToken [] = .error (.authenticationError [])
    ∧ getAccessToken [("access_token", .null)]
      = .error (.authenticationError [("access_token", .null)])
    ∧ getAccessToken [("access_token", .str "")]
      = .error (.authenticationError [("access_token", .str "")]) :=
  ⟨getAccessToken_falsy_token_fails [] rfl,
   getAccessToken_falsy_token_fails [("access_token", .null)] rfl,
   getAccessToken_falsy_token_fails [("access_token", .str "")] rfl⟩

/-- C9: a `serverId` on which `parseInt(serverId, 10)` finds no digits does
not make `executeVarnishAction` fail at payload construction: the silent
`NaN` sentinel is placed in the payload's `server_id` field and the call
proceeds to send that payload and interpret the response as usual. -/
theorem executeVarnishAction_nan_server_id (serverId action : String)
    (net : List (String × JSValue) → List (String × JSValue))
    (h : parseIntBase10 serverId = .nan) :
    buildVarnishPayload serverId action = [("server_id", .nan), ("action", .str action)]
    ∧ executeVarnishAction serverId action net
      = interpretVarnishResponse (net [("server_id", .nan), ("action", .str action)]) := by
  have hp : buildVarnishPayload serverId action
      = [("server_id", JSValue.nan), ("action", .str action)] := by
    simp [buildVarnishPayload, h]
  refine ⟨hp, ?_⟩
  show interpretVarnishResponse (net (buildVarnishPayload serverId action)) = _
  rw [hp]

/-- C9 witness: `serverId = "abc"` yields a payload carrying `NaN` and the
call still reaches response interpretation. -/
theorem executeVarnishAction_nan_server_id_witness :
    buildVarnishPayload "abc" "flush_all" = [("server_id", .nan), ("action", .str "flush_all")]
    ∧ executeVarnishAction "abc" "flush_all" (fun _ => [("status", .bool true)])
      = interpretVarnishResponse [("status", .bool true)] :=
  executeVarnishAction_nan_server_id "abc" "flush_all" (fun _ => [("status", .bool true)]) rfl

/-- C10: each falsy `maxAttempts` or `interval` argument of
`waitForCompletion` — 0, null, undefined or NaN, not merely an omitted
(undefined) one — is independently replaced by its default, 30 or 5000,
whatever the other argument is: a falsy `maxAttempts` makes the call behave
exactly as with `maxAttempts = 30` (and, in particular, an explicit
`maxAttempts = 0` does not mean zero polling attempts: against an
always-incomplete endpoint the run times out only after the full default
budget of 30 attempts), and a falsy `interval` makes the call behave exactly
as with `interval = 5000` — the fixed wait passed into every polling cycle
is 5000 ms. -/
theorem waitForCompletion_falsy_defaults (operationId : String)
    (responses : Nat → List (String × JSValue)) (maxAttempts interval : JSValue) :
    (truthy maxAttempts = false →
      waitForCompletion operationId responses maxAttempts interval
        = waitForCompletion operationId responses (.num 30) interval
      ∧ waitForCompletion operationId alwaysIncomplete maxAttempts interval
        = .error (.timeoutError operationId 30))
    ∧ (truthy interval = false →
      waitForCompletion operationId responses maxAttempts interval
        = waitForCompletion operationId responses maxAttempts (.num 5000)
      ∧ waitForCompletion operationId responses maxAttempts interval
        = checkOperationUntilComplete operationId responses 1
            (jsToNat (if truthy maxAttempts then maxAttempts else .num 30)) 5000) := by
  have h30 : truthy (JSValue.num 30) = true := rfl
  have h5000 : truthy (JSValue.num 5000) = true := rfl
  constructor
  · intro hma
    constructor
    · simp [waitForCompletion, hma, h30]
    · simp [waitForCompletion, hma, jsToNat]
      exact (poll_all_incomplete operationId alwaysIncomplete 30 _ (fun _ => rfl) 30 1 rfl).1
  · intro hiv
    constructor
    · simp [waitForCompletion, hiv, h5000]
    · simp [waitForCompletion, hiv, jsToNat]

/-- C10 witness: `maxAttempts = 0` with a truthy `interval = 1000` still
gives a full 30-attempt run, and `interval = 0` with a truthy
`maxAttempts = 3` behaves exactly as `interval = 5000`. -/
theorem waitForCompletion_falsy_defaults_witness :
    waitForCompletion "op-7" alwaysIncomplete (.num 0) (.num 1000)
      = .error (.timeoutError "op-7" 30)
    ∧ waitForCompletion "op-7" alwaysIncomplete (.num 3) (.num 0)
      = waitForCompletion "op-7" alwaysIncomplete (.num 3) (.num 5000) :=
  ⟨((waitForCompletion_falsy_defaults "op-7" alwaysIncomplete (.num 0) (.num 1000)).1 rfl).2,
   ((waitForCompletion_falsy_defaults "op-7" alwaysIncomplete (.num 3) (.num 0)).2 rfl).1⟩
